import Mathlib

/-!
Php::LongMember (src/longmember.h)

A shallow embedding of the `LongMember` class: a class member that is initially set to a
`long` value and that registers itself on a class entry of the host runtime, either as a
class constant (`constant`) or as a property (`declare`).

Conventions of the embedding:

* a `std::string`, and the byte string a `const char *` designates up to its terminator,
  is the list of its bytes;
* `long` and `int` values are integers; the class only stores and forwards them, it never
  computes with them;
* a `struct _zend_class_entry *` is an opaque handle, represented by its address;
* the host runtime is external. It is represented by a recording double: each registration
  function appends the argument tuple it received to a trace, and reports an outcome that
  the environment chooses. The double reads the name it is handed and never writes to it;
* a method is a function of the object and the host state that returns the method result
  (`Unit` for `void`), the object after the call and the host state after the call.
-/

set_option linter.dupNamespace false

namespace Php

/-- Byte string: the contents of a `std::string`. -/
abbrev std_string := List UInt8

/-- The UTF-8 bytes of a piece of text, as a compiler lays out a narrow string literal.
It is only used to write names down. -/
def utf8 (s : String) : std_string := s.data.flatMap String.utf8EncodeChar

/-- The character data `std::string::c_str()` points to. -/
def std_string.c_str (s : std_string) : List UInt8 := s

/-- The number of bytes `std::string::size()` reports. -/
def std_string.size (s : std_string) : Nat := s.length

/-- A `struct _zend_class_entry *`: an opaque handle owned by the host runtime. -/
abbrev ClassEntry := Nat

/-- What a registration function of the host runtime reports back. -/
inductive Outcome where
  | success
  | failure
deriving DecidableEq

/-- One call into the host runtime, with the arguments it received. -/
inductive HostCall where
  | class_constant_long (entry : ClassEntry) (name : List UInt8) (name_length : Nat)
      (value : Int)
  | property_long (entry : ClassEntry) (name : List UInt8) (name_length : Nat)
      (value : Int) (access_type : Int)
deriving DecidableEq

/-- The class entry a host call targets. -/
def HostCall.entry : HostCall → ClassEntry
  | .class_constant_long e _ _ _ => e
  | .property_long e _ _ _ _ => e

/-- The name bytes a host call received. -/
def HostCall.name : HostCall → List UInt8
  | .class_constant_long _ n _ _ => n
  | .property_long _ n _ _ _ => n

/-- The name length a host call received. -/
def HostCall.name_length : HostCall → Nat
  | .class_constant_long _ _ l _ => l
  | .property_long _ _ l _ _ => l

/-- The long value a host call received. -/
def HostCall.value : HostCall → Int
  | .class_constant_long _ _ _ v => v
  | .property_long _ _ _ v _ => v

/-- The flags a host call received, when it has a flags argument at all. -/
def HostCall.flags : HostCall → Option Int
  | .class_constant_long _ _ _ _ => none
  | .property_long _ _ _ _ f => some f

/-- The recording double of the host runtime: `reply` chooses the outcome of a call from
the calls made before it and the call itself, `trace` holds the calls made so far, oldest
first. -/
structure Host where
  reply : List HostCall → HostCall → Outcome
  trace : List HostCall

/-- A host on which nothing has been registered yet and whose calls all succeed. -/
def Host.fresh : Host := ⟨fun _ _ => Outcome.success, []⟩

/-- A host on which nothing has been registered yet and whose calls all fail. -/
def Host.failing : Host := ⟨fun _ _ => Outcome.failure, []⟩

/-- The host runtime function that registers a class constant of kind long. -/
def zend_declare_class_constant_long (host : Host) (entry : ClassEntry)
    (name : List UInt8) (name_length : Nat) (value : Int) : Outcome × Host :=
  (host.reply host.trace (HostCall.class_constant_long entry name name_length value),
   ⟨host.reply, host.trace ++ [HostCall.class_constant_long entry name name_length value]⟩)

/-- The host runtime function that registers a property of kind long. -/
def zend_declare_property_long (host : Host) (entry : ClassEntry)
    (name : List UInt8) (name_length : Nat) (value : Int) (access_type : Int) :
    Outcome × Host :=
  (host.reply host.trace
     (HostCall.property_long entry name name_length value access_type),
   ⟨host.reply,
    host.trace ++ [HostCall.property_long entry name name_length value access_type]⟩)

/-- Modelled from the spec: the `Member` base class, which `LongMember` derives from and
which is not part of the source fragment. The data model of the spec gives it a `name`
and a `flags` bitmask, both set at construction; the source reads them as `_name` (a
`std::string`) and `_flags`. -/
structure Member where
  _name : std_string
  _flags : Int
deriving DecidableEq

/-- Modelled from the spec: the base constructor `Member(name, flags)`, which is not part
of the source fragment. It stores the name and the flags as given. -/
def Member.Member (name : List UInt8) (flags : Int) : Php.Member := ⟨name, flags⟩

/-- The class `LongMember`: a `Member` with a private `long _value`. -/
structure LongMember extends Member where
  _value : Int
deriving DecidableEq

/-- The constructor `LongMember(name, value, flags) : Member(name, flags), _value(value)`. -/
def LongMember.LongMember (name : List UInt8) (value : Int) (flags : Int) :
    Php.LongMember :=
  ⟨Member.Member name flags, value⟩

/-- The method `constant`: one call of `zend_declare_class_constant_long` with
`(entry, _name.c_str(), _name.size(), _value)`, whose result is discarded. -/
def LongMember.constant (self : Php.LongMember) (entry : ClassEntry) (host : Host) :
    Unit × Php.LongMember × Host :=
  let r := zend_declare_class_constant_long host entry
    self._name.c_str self._name.size self._value
  ((), self, r.2)

/-- The method `declare`: one call of `zend_declare_property_long` with
`(entry, (char *)_name.c_str(), _name.size(), _value, _flags)`, whose result is
discarded. The cast changes the type of the pointer only. -/
def LongMember.declare (self : Php.LongMember) (entry : ClassEntry) (host : Host) :
    Unit × Php.LongMember × Host :=
  let r := zend_declare_property_long host entry
    self._name.c_str self._name.size self._value self._flags
  ((), self, r.2)

/-- Two method calls in a row on one object, as a caller makes them: the second method
runs on the object and on the host as the first one left them. -/
def LongMember.twice
    (first second : Php.LongMember → ClassEntry → Host → Unit × Php.LongMember × Host)
    (self : Php.LongMember) (e1 e2 : ClassEntry) (host : Host) :
    Unit × Php.LongMember × Host :=
  let s := first self e1 host
  second s.2.1 e2 s.2.2

/-- The calls a method records when it runs alone: on a member just constructed from
`(name, value, flags)` and on a host whose trace is empty. -/
def LongMember.alone
    (method : Php.LongMember → ClassEntry → Host → Unit × Php.LongMember × Host)
    (name : List UInt8) (value flags : Int) (entry : ClassEntry)
    (reply : List HostCall → HostCall → Outcome) : List HostCall :=
  (method (LongMember.LongMember name value flags) entry ⟨reply, []⟩).2.2.trace

/-! Properties -/

/-- The UTF-8 bytes of a piece of text number as many as its byte size. -/
theorem utf8_length (s : String) : (utf8 s).length = s.utf8ByteSize :=
  String.size_toUTF8 s

/-- The whole effect of `constant`: unit result, the object as it was, and the host trace
longer by the one constant registration. -/
theorem constant_eq (m : LongMember) (entry : ClassEntry) (host : Host) :
    m.constant entry host
      = ((), m, ⟨host.reply, host.trace ++
          [HostCall.class_constant_long entry m._name m._name.length m._value]⟩) := rfl

/-- The whole effect of `declare`: unit result, the object as it was, and the host trace
longer by the one property registration. -/
theorem declare_eq (m : LongMember) (entry : ClassEntry) (host : Host) :
    m.declare entry host
      = ((), m, ⟨host.reply, host.trace ++
          [HostCall.property_long entry m._name m._name.length m._value m._flags]⟩) := rfl

/-- C1: for every name, value, flags and class entry, `declare` on
`LongMember(name, value, flags)` makes exactly one host call. The trace it finds is kept
and gains a single entry, the long property registration with the entry handle, the bytes
of the name, their count, the value and the flags, the last two exactly as constructed. -/
theorem declare_records_one_property_call (name : List UInt8) (value flags : Int)
    (entry : ClassEntry) (host : Host) :
    ((LongMember.LongMember name value flags).declare entry host).2.2.trace
      = host.trace ++ [HostCall.property_long entry name name.length value flags] := rfl

/-- C2: for every name, value, flags and class entry, `constant` on
`LongMember(name, value, flags)` makes exactly one host call, the long constant
registration with the entry handle, the bytes of the name, their count and the value; the
call has no flags argument, so members that differ in flags only record the same call.
For the name MAX, value 100 and flags 0 the call is (entry, MAX, 3, 100). -/
theorem constant_records_one_constant_call :
    (∀ (name : List UInt8) (value flags : Int) (entry : ClassEntry) (host : Host),
      ((LongMember.LongMember name value flags).constant entry host).2.2.trace
        = host.trace ++ [HostCall.class_constant_long entry name name.length value]
      ∧ (HostCall.class_constant_long entry name name.length value).flags = none)
    ∧ (∀ (name : List UInt8) (value flags flags2 : Int) (entry : ClassEntry) (host : Host),
      ((LongMember.LongMember name value flags).constant entry host).2.2.trace
        = ((LongMember.LongMember name value flags2).constant entry host).2.2.trace)
    ∧ (∀ (entry : ClassEntry),
      ((LongMember.LongMember (utf8 "MAX") 100 0).constant entry Host.fresh).2.2.trace
        = [HostCall.class_constant_long entry [77, 65, 88] 3 100]) :=
  ⟨fun _ _ _ _ _ => ⟨rfl, rfl⟩, fun _ _ _ _ _ _ => rfl, fun _ => rfl⟩

/-- C3, as the claim lists the call: for name level, value 5 and flags PUBLIC (here 256)
on entry 1, the one call `declare` records is neither (entry, level, 5, 3, PUBLIC) read
as (entry, name, length, value, flags) nor that tuple with length and value swapped: the
name level has five bytes and the value is 5. -/
theorem declare_level_call_differs_from_listed :
    ((LongMember.LongMember (utf8 "level") 5 256).declare 1 Host.fresh).2.2.trace
        ≠ [HostCall.property_long 1 (utf8 "level") 5 3 256]
    ∧ ((LongMember.LongMember (utf8 "level") 5 256).declare 1 Host.fresh).2.2.trace
        ≠ [HostCall.property_long 1 (utf8 "level") 3 5 256] := by
  constructor <;> decide

/-- C3, amended: for name level, value 5 and any flags value PUBLIC, `declare` records
exactly one property registration, with arguments (entry, level, 5, 5, PUBLIC): the five
bytes of the name, the length 5, the value 5 and the flags. -/
theorem declare_level_call (entry : ClassEntry) (PUBLIC : Int) (host : Host) :
    ((LongMember.LongMember (utf8 "level") 5 PUBLIC).declare entry host).2.2.trace
      = host.trace
        ++ [HostCall.property_long entry [108, 101, 118, 101, 108] 5 5 PUBLIC] := rfl

/-- C4: for every member, the name length that `constant` and `declare` pass is the
number of bytes of the name. For a name given as text it is the UTF-8 byte size of the
text, which is 0 for the empty name and 2, not the character count 1, for a name made of
one two-byte character. -/
theorem name_length_is_byte_length :
    (∀ (m : LongMember) (entry : ClassEntry) (host : Host),
      ((m.constant entry host).2.2.trace.drop host.trace.length).map HostCall.name_length
        = [m._name.length]
      ∧ ((m.declare entry host).2.2.trace.drop host.trace.length).map HostCall.name_length
        = [m._name.length])
    ∧ (∀ (s : String) (value flags : Int) (entry : ClassEntry) (host : Host),
      (((LongMember.LongMember (utf8 s) value flags).constant entry host).2.2.trace.drop
          host.trace.length).map HostCall.name_length = [s.utf8ByteSize]
      ∧ (((LongMember.LongMember (utf8 s) value flags).declare entry host).2.2.trace.drop
          host.trace.length).map HostCall.name_length = [s.utf8ByteSize])
    ∧ (((LongMember.LongMember (utf8 "") 1 0).constant 1 Host.fresh).2.2.trace.map
          HostCall.name_length = [0]
      ∧ ((LongMember.LongMember (utf8 "") 1 0).declare 1 Host.fresh).2.2.trace.map
          HostCall.name_length = [0])
    ∧ (((LongMember.LongMember (utf8 "é") 1 0).constant 1 Host.fresh).2.2.trace.map
          HostCall.name_length = [2]
      ∧ ((LongMember.LongMember (utf8 "é") 1 0).declare 1 Host.fresh).2.2.trace.map
          HostCall.name_length = [2]
      ∧ "é".length = 1) := by
  refine ⟨fun m entry host => ?_, fun s value flags entry host => ?_, ?_, ?_⟩
  · simp [constant_eq, declare_eq, HostCall.name_length]
  · simp [constant_eq, declare_eq, HostCall.name_length, LongMember.LongMember,
      Member.Member, utf8_length]
  · exact ⟨by decide, by decide⟩
  · exact ⟨by decide, by decide, by decide⟩

/-- C5: `constant` and `declare` leave the member as it was: the object after the call
equals the object before it, and so do its name, value and flags, for every member, class
entry and host. The pointer cast in `declare` does not touch the stored name. -/
theorem constant_and_declare_leave_member_unchanged (m : LongMember)
    (entry : ClassEntry) (host : Host) :
    ((m.constant entry host).2.1 = m
      ∧ (m.constant entry host).2.1._name = m._name
      ∧ (m.constant entry host).2.1._value = m._value
      ∧ (m.constant entry host).2.1._flags = m._flags)
    ∧ ((m.declare entry host).2.1 = m
      ∧ (m.declare entry host).2.1._name = m._name
      ∧ (m.declare entry host).2.1._value = m._value
      ∧ (m.declare entry host).2.1._flags = m._flags) :=
  ⟨⟨rfl, rfl, rfl, rfl⟩, ⟨rfl, rfl, rfl, rfl⟩⟩

/-- C6: two operations in a row on the member built from `(name, value, flags)`, on
entries `e1` then `e2` (declare then constant, constant then declare, declare twice,
constant twice), add exactly two calls to the trace, in the order invoked: the added
calls are the calls the first operation records alone on a newly built member followed by
the calls the second records alone, whatever the host replies in any of the runs. -/
theorem sequence_trace_is_concatenation (name : List UInt8) (value flags : Int)
    (e1 e2 : ClassEntry) (host : Host)
    (r1 r2 : List HostCall → HostCall → Outcome) :
    ((LongMember.twice LongMember.declare LongMember.constant
          (LongMember.LongMember name value flags) e1 e2 host).2.2.trace
        = host.trace ++ (LongMember.alone LongMember.declare name value flags e1 r1
            ++ LongMember.alone LongMember.constant name value flags e2 r2)
      ∧ (LongMember.alone LongMember.declare name value flags e1 r1
            ++ LongMember.alone LongMember.constant name value flags e2 r2).length = 2)
    ∧ ((LongMember.twice LongMember.constant LongMember.declare
          (LongMember.LongMember name value flags) e1 e2 host).2.2.trace
        = host.trace ++ (LongMember.alone LongMember.constant name value flags e1 r1
            ++ LongMember.alone LongMember.declare name value flags e2 r2)
      ∧ (LongMember.alone LongMember.constant name value flags e1 r1
            ++ LongMember.alone LongMember.declare name value flags e2 r2).length = 2)
    ∧ ((LongMember.twice LongMember.declare LongMember.declare
          (LongMember.LongMember name value flags) e1 e2 host).2.2.trace
        = host.trace ++ (LongMember.alone LongMember.declare name value flags e1 r1
            ++ LongMember.alone LongMember.declare name value flags e2 r2)
      ∧ (LongMember.alone LongMember.declare name value flags e1 r1
            ++ LongMember.alone LongMember.declare name value flags e2 r2).length = 2)
    ∧ ((LongMember.twice LongMember.constant LongMember.constant
          (LongMember.LongMember name value flags) e1 e2 host).2.2.trace
        = host.trace ++ (LongMember.alone LongMember.constant name value flags e1 r1
            ++ LongMember.alone LongMember.constant name value flags e2 r2)
      ∧ (LongMember.alone LongMember.constant name value flags e1 r1
            ++ LongMember.alone LongMember.constant name value flags e2 r2).length = 2) := by
  simp [LongMember.twice, LongMember.alone, constant_eq, declare_eq]

/-- C7: two members constructed from equal names, equal values and equal flags record the
same calls: on every class entry and host, `constant` leaves the same trace for both, and
so does `declare`. -/
theorem equal_arguments_give_equal_traces (n1 n2 : List UInt8) (v1 v2 f1 f2 : Int)
    (entry : ClassEntry) (host : Host) (hn : n1 = n2) (hv : v1 = v2) (hf : f1 = f2) :
    ((LongMember.LongMember n1 v1 f1).constant entry host).2.2.trace
        = ((LongMember.LongMember n2 v2 f2).constant entry host).2.2.trace
    ∧ ((LongMember.LongMember n1 v1 f1).declare entry host).2.2.trace
        = ((LongMember.LongMember n2 v2 f2).declare entry host).2.2.trace := by
  subst hn hv hf
  exact ⟨rfl, rfl⟩

/-- Witness for C7: two members built from the name MAX, the value 100 and the flags 0. -/
theorem equal_arguments_give_equal_traces_witness :
    (utf8 "MAX" = [77, 65, 88] ∧ (100 : Int) = 100 ∧ (0 : Int) = 0)
    ∧ (((LongMember.LongMember (utf8 "MAX") 100 0).constant 1 Host.fresh).2.2.trace
        = ((LongMember.LongMember [77, 65, 88] 100 0).constant 1 Host.fresh).2.2.trace
      ∧ ((LongMember.LongMember (utf8 "MAX") 100 0).declare 1 Host.fresh).2.2.trace
        = ((LongMember.LongMember [77, 65, 88] 100 0).declare 1 Host.fresh).2.2.trace) :=
  ⟨⟨by decide, rfl, rfl⟩,
   equal_arguments_give_equal_traces (utf8 "MAX") [77, 65, 88] 100 100 0 0 1 Host.fresh
     (by decide) rfl rfl⟩

/-- C8: whatever the host replies to the registration call, `constant` and `declare` make
that call exactly once and return unit. For two hosts with the same trace and any two
reply rules (for instance one that always succeeds and one that always fails), the unit
result, the member afterwards and the trace afterwards coincide, and the trace is the old
one plus the single call. -/
theorem host_outcome_is_not_observed (m : LongMember) (entry : ClassEntry)
    (reply1 reply2 : List HostCall → HostCall → Outcome) (trace : List HostCall) :
    ((m.constant entry ⟨reply1, trace⟩).1 = (m.constant entry ⟨reply2, trace⟩).1
      ∧ (m.constant entry ⟨reply1, trace⟩).2.1 = (m.constant entry ⟨reply2, trace⟩).2.1
      ∧ (m.constant entry ⟨reply1, trace⟩).2.2.trace
          = trace ++ [HostCall.class_constant_long entry m._name m._name.length m._value]
      ∧ (m.constant entry ⟨reply2, trace⟩).2.2.trace
          = trace ++ [HostCall.class_constant_long entry m._name m._name.length m._value])
    ∧ ((m.declare entry ⟨reply1, trace⟩).1 = (m.declare entry ⟨reply2, trace⟩).1
      ∧ (m.declare entry ⟨reply1, trace⟩).2.1 = (m.declare entry ⟨reply2, trace⟩).2.1
      ∧ (m.declare entry ⟨reply1, trace⟩).2.2.trace
          = trace
            ++ [HostCall.property_long entry m._name m._name.length m._value m._flags]
      ∧ (m.declare entry ⟨reply2, trace⟩).2.2.trace
          = trace
            ++ [HostCall.property_long entry m._name m._name.length m._value m._flags])
    ∧ ((m.constant entry Host.fresh).1 = (m.constant entry Host.failing).1
      ∧ (m.constant entry Host.fresh).2.2.trace = (m.constant entry Host.failing).2.2.trace
      ∧ (m.declare entry Host.fresh).1 = (m.declare entry Host.failing).1
      ∧ (m.declare entry Host.fresh).2.2.trace
          = (m.declare entry Host.failing).2.2.trace) :=
  ⟨⟨rfl, rfl, rfl, rfl⟩, ⟨rfl, rfl, rfl, rfl⟩, ⟨rfl, rfl, rfl, rfl⟩⟩

/-- C10: for every member and class entry, `constant` and `declare` each record one call,
and the two calls agree on all but the flags: both target the entry handle passed in and
carry the same name bytes, the same name length and the same value; the constant call has
no flags, and the property call is the constant call with the flags of the member added. -/
theorem declare_call_is_constant_call_plus_flags (m : LongMember) (entry : ClassEntry)
    (host : Host) :
    ∃ c d : HostCall,
      (m.constant entry host).2.2.trace = host.trace ++ [c]
      ∧ (m.declare entry host).2.2.trace = host.trace ++ [d]
      ∧ c.entry = entry ∧ d.entry = entry
      ∧ c.name = d.name ∧ c.name = m._name
      ∧ c.name_length = d.name_length
      ∧ c.value = d.value ∧ c.value = m._value
      ∧ c.flags = none ∧ d.flags = some m._flags
      ∧ d = HostCall.property_long c.entry c.name c.name_length c.value m._flags :=
  ⟨HostCall.class_constant_long entry m._name m._name.length m._value,
   HostCall.property_long entry m._name m._name.length m._value m._flags,
   rfl, rfl, rfl, rfl, rfl, rfl, rfl, rfl, rfl, rfl, rfl, rfl⟩

end Php
